import Mathlib

/-!
Verification development for the StreamPad controller-input overlay.

The Python sources `streampad.py` and `streampad_pygame.py` are embedded
shallowly: Python dicts become association lists, the mutable
`StreamPadPygame` object becomes an explicit state record `St`, object
identity of `DDRNote` instances (which are shared between `self.notes` and
`self.active_notes`) is modelled by a reference heap `List (Nat × DDRNote)`
indexed by allocation order, and wall-clock times are exact rationals.
Canonical press/release emissions are recorded in an `events` trace field so
that "emits press(id)" is a statement about the trace.
-/

namespace StreamPad

/-- Lookup in an association list, returning the value of the first entry
with the given key (the model of Python `d[k]` / `d.get(k)`). -/
def dget {α β : Type} [DecidableEq α] : List (α × β) → α → Option β
  | [], _ => none
  | (k, v) :: rest, a => if a = k then some v else dget rest a

/-- Write a key in an association list: the first entry with the key is
replaced in place, otherwise the pair is appended (Python `d[k] = v`). -/
def dset {α β : Type} [DecidableEq α] : List (α × β) → α → β → List (α × β)
  | [], a, b => [(a, b)]
  | (k, v) :: rest, a, b =>
      if a = k then (k, b) :: rest else (k, v) :: dset rest a b

/-- Delete a key from an association list (Python `del d[k]`). -/
def ddel {α β : Type} [DecidableEq α] : List (α × β) → α → List (α × β)
  | [], _ => []
  | (k, v) :: rest, a =>
      if k = a then ddel rest a else (k, v) :: ddel rest a

/-- Controller families, from `class ControllerType(Enum)`. -/
inductive ControllerType where
  | switch_pro
  | snes_switch
  | ps4
  | ps5
  | xbox
  | generic
deriving DecidableEq, Repr

/-- Canonical lane ordering, from `BUTTON_ORDER` in `streampad.py`. -/
def BUTTON_ORDER : List String :=
  ["14", "12", "15", "13", "2", "3", "0", "1", "4", "5", "6", "7", "8", "9"]

/-- The default raw-index table of `get_button_mapping` in `streampad.py`
(the `mapping = { ... }` dict literal used for most controllers). -/
def generic_mapping : Nat → Option String
  | 0 => some "1"
  | 1 => some "0"
  | 2 => some "2"
  | 3 => some "3"
  | 4 => some "4"
  | 5 => some "5"
  | 6 => some "8"
  | 7 => some "9"
  | 8 => some "8"
  | 9 => some "9"
  | 10 => some "4"
  | 11 => some "5"
  | 12 => some "12"
  | 13 => some "13"
  | 14 => some "14"
  | 15 => some "15"
  | _ => none

/-- The Switch Pro table of `get_button_mapping` in `streampad.py`.  In the
source this dict literal is assigned to `mapping`, replacing the default
table wholesale (raw indices 5 and 15 are absent from it). -/
def switch_pro_mapping : Nat → Option String
  | 0 => some "1"
  | 1 => some "0"
  | 2 => some "2"
  | 3 => some "3"
  | 4 => some "8"
  | 6 => some "9"
  | 7 => some "10"
  | 8 => some "11"
  | 9 => some "4"
  | 10 => some "5"
  | 11 => some "12"
  | 12 => some "13"
  | 13 => some "14"
  | 14 => some "15"
  | _ => none

/-- The SNES override entries of `get_button_mapping` in `streampad.py`
(the dict passed to `mapping.update({...})`). -/
def snes_switch_updates : Nat → Option String
  | 11 => some "12"
  | 12 => some "13"
  | 13 => some "14"
  | 14 => some "15"
  | 9 => some "4"
  | 10 => some "5"
  | 0 => some "1"
  | 1 => some "0"
  | 2 => some "2"
  | 3 => some "3"
  | 4 => some "8"
  | 6 => some "9"
  | _ => none

/-- `get_button_mapping` from `streampad.py`: the default table, replaced
wholesale for SwitchPro, updated in place (`dict.update`) for SnesSwitch. -/
def get_button_mapping (ct : ControllerType) (i : Nat) : Option String :=
  match ct with
  | .switch_pro => switch_pro_mapping i
  | .snes_switch =>
      match snes_switch_updates i with
      | some v => some v
      | none => generic_mapping i
  | _ => generic_mapping i

namespace Pyg

/-- The default raw-index table of `get_button_mapping` in
`streampad_pygame.py` (identical literal to the other variant). -/
def generic_mapping : Nat → Option String
  | 0 => some "1"
  | 1 => some "0"
  | 2 => some "2"
  | 3 => some "3"
  | 4 => some "4"
  | 5 => some "5"
  | 6 => some "8"
  | 7 => some "9"
  | 8 => some "8"
  | 9 => some "9"
  | 10 => some "4"
  | 11 => some "5"
  | 12 => some "12"
  | 13 => some "13"
  | 14 => some "14"
  | 15 => some "15"
  | _ => none

/-- The Switch Pro table of `get_button_mapping` in `streampad_pygame.py`
(assigned to `mapping`, replacing the default table; it covers 0..17). -/
def switch_pro_mapping : Nat → Option String
  | 0 => some "0"
  | 1 => some "1"
  | 2 => some "3"
  | 3 => some "2"
  | 4 => some "4"
  | 5 => some "5"
  | 6 => some "4"
  | 7 => some "5"
  | 8 => some "8"
  | 9 => some "9"
  | 10 => some "4"
  | 11 => some "5"
  | 12 => some "12"
  | 13 => some "13"
  | 14 => some "14"
  | 15 => some "15"
  | 16 => some "9"
  | 17 => some "8"
  | _ => none

/-- The SNES override entries of `get_button_mapping` in
`streampad_pygame.py` (the dict passed to `mapping.update({...})`). -/
def snes_switch_updates : Nat → Option String
  | 0 => some "0"
  | 1 => some "1"
  | 2 => some "2"
  | 3 => some "3"
  | _ => none

/-- `get_button_mapping` from `streampad_pygame.py`. -/
def get_button_mapping (ct : ControllerType) (i : Nat) : Option String :=
  match ct with
  | .switch_pro => switch_pro_mapping i
  | .snes_switch =>
      match snes_switch_updates i with
      | some v => some v
      | none => generic_mapping i
  | _ => generic_mapping i

end Pyg

/-- Canonical press/release emissions.  The Python methods announce each
transition they apply (and trigger the note side effects there); the trace
records exactly those applied transitions. -/
inductive Ev where
  | press (id : String)
  | release (id : String)
deriving DecidableEq, Repr

/-- The `DDRNote` dataclass of `streampad.py`. -/
structure DDRNote where
  x : ℚ
  y : ℚ
  width : ℚ
  height : ℚ
  color : Nat × Nat × Nat
  button_id : String
  start_time : ℚ
  end_time : Option ℚ
  is_growing : Bool
  initial_bottom : ℚ
deriving DecidableEq, Repr

/-- `COLORS['button_colors']` from `streampad.py`. -/
def button_colors : String → Option (Nat × Nat × Nat)
  | "14" => some (255, 20, 147)
  | "12" => some (0, 255, 255)
  | "15" => some (50, 205, 50)
  | "13" => some (255, 215, 0)
  | "4" => some (255, 69, 0)
  | "5" => some (148, 0, 211)
  | "6" => some (255, 140, 0)
  | "7" => some (138, 43, 226)
  | "8" => some (30, 144, 255)
  | "9" => some (255, 105, 180)
  | "2" => some (255, 255, 0)
  | "3" => some (65, 105, 225)
  | "0" => some (0, 255, 127)
  | "1" => some (255, 99, 71)
  | _ => none

/-- `self.min_note_height = 8`. -/
def min_note_height : ℚ := 8

/-- `self.initial_bottom = 5` (the fixed start offset from the lane bottom). -/
def initial_bottom_setting : ℚ := 5

/-- `self.note_speed = 0.15 * 1000` (pixels per second of upward travel). -/
def note_speed : ℚ := 0.15 * 1000

/-- `self.growth_rate = 0.08 * 1000` (pixels per second of growth). -/
def growth_rate : ℚ := 0.08 * 1000

/-- `self.hat_button_debounce_ms = 30`. -/
def hat_button_debounce_ms : ℚ := 30

/-- The mutable fields of the `StreamPadPygame` object that the input
normalizer and note engine touch.  `heap` models Python object identity for
`DDRNote` instances: `notes` and `active_notes` hold references
(allocation-order indices) into it. -/
structure St where
  button_states : List (String × Bool)
  last_button_states : List (String × Bool)
  last_axis_states : List (String × Bool)
  last_hat_state : Int × Int
  heap : List (Nat × DDRNote)
  next_ref : Nat
  notes : List Nat
  active_notes : List (String × Nat)
  button_press_count : List (String × Nat)
  total_presses : Nat
  nintendo_hat_only : Bool
  last_hat_event_time : ℚ
  controller_type : ControllerType
  last_global_button_states : List (Nat × Bool)
  last_global_hat_state : Int × Int
  events : List Ev
  lane_width : ℚ
  lane_height : ℚ
deriving DecidableEq, Repr

/-- The state built by `StreamPadPygame.__init__`, parametrized by the
detected controller type, the `nintendo_hat_only` heuristic result, and the
layout dimensions computed from the screen size. -/
def init_state (ct : ControllerType) (nho : Bool) (lw lh : ℚ) : St :=
  { button_states := []
    last_button_states := []
    last_axis_states := []
    last_hat_state := (0, 0)
    heap := []
    next_ref := 0
    notes := []
    active_notes := []
    button_press_count := BUTTON_ORDER.map (fun b => (b, 0))
    total_presses := 0
    nintendo_hat_only := nho
    last_hat_event_time := 0
    controller_type := ct
    last_global_button_states := []
    last_global_hat_state := (0, 0)
    events := []
    lane_width := lw
    lane_height := lh }

/-- The note value built inside `create_ddr_note`. -/
def mk_note (now : ℚ) (s : St) (id : String) : DDRNote :=
  { x := (BUTTON_ORDER.indexOf id : ℚ) * s.lane_width + 5
    y := s.lane_height - initial_bottom_setting - min_note_height
    width := s.lane_width - 10
    height := min_note_height
    color := (button_colors id).getD (255, 255, 255)
    button_id := id
    start_time := now
    end_time := none
    is_growing := true
    initial_bottom := s.lane_height - initial_bottom_setting }

/-- `create_ddr_note` from `streampad.py`: returns immediately when the id
has no lane, otherwise allocates a fresh note, appends it to `notes` and
points `active_notes[id]` at it. -/
def create_ddr_note (now : ℚ) (s : St) (id : String) : St :=
  if id ∈ BUTTON_ORDER then
    { s with heap := dset s.heap s.next_ref (mk_note now s id)
             notes := s.notes ++ [s.next_ref]
             active_notes := dset s.active_notes id s.next_ref
             next_ref := s.next_ref + 1 }
  else s

/-- `on_button_press` from `streampad.py` (the lock is implicit in the
sequential model): no-op when the store already marks the id pressed; else
marks it pressed, bumps both counters, records the emission and creates the
note. -/
def on_button_press (now : ℚ) (s : St) (id : String) : St :=
  if dget s.button_states id = some true then s
  else
    create_ddr_note now
      { s with button_states := dset s.button_states id true
               button_press_count :=
                 dset s.button_press_count id
                   ((dget s.button_press_count id).getD 0 + 1)
               total_presses := s.total_presses + 1
               events := s.events ++ [Ev.press id] } id

/-- `end_ddr_note` from `streampad.py`: if an active note owns the id, its
growing flag is cleared, its release time stamped, and the active entry
deleted.  (The heap-miss branch cannot occur in reachable states.) -/
def end_ddr_note (now : ℚ) (s : St) (id : String) : St :=
  match dget s.active_notes id with
  | none => s
  | some r =>
      match dget s.heap r with
      | some n =>
          { s with heap := dset s.heap r
                     { n with is_growing := false, end_time := some now }
                   active_notes := ddel s.active_notes id }
      | none => { s with active_notes := ddel s.active_notes id }

/-- `on_button_release` from `streampad.py`: no-op unless the store marks
the id pressed; else marks it released, records the emission and ends the
note. -/
def on_button_release (now : ℚ) (s : St) (id : String) : St :=
  if dget s.button_states id = some true then
    end_ddr_note now
      { s with button_states := dset s.button_states id false
               events := s.events ++ [Ev.release id] } id
  else s

/-- The per-note body of the `update_ddr_notes` loop: growing notes recompute
height from elapsed creation time, released notes recompute their top edge
from elapsed release time. -/
def update_note (now : ℚ) (n : DDRNote) : DDRNote :=
  if n.is_growing then
    { n with
        height := min_note_height + (now - n.start_time) * 1000 * (growth_rate / 1000)
        y := n.initial_bottom -
          (min_note_height + (now - n.start_time) * 1000 * (growth_rate / 1000)) }
  else
    match n.end_time with
    | some te =>
        { n with y := n.initial_bottom - n.height -
            (now - te) * 1000 * (note_speed / 1000) }
    | none => n

/-- The purge test of `update_ddr_notes`: only non-growing notes whose
(updated) top edge has passed 100 units above the screen are collected. -/
def should_remove (n : DDRNote) : Bool :=
  !n.is_growing && decide (n.y + n.height < -100)

/-- The heap after the `update_ddr_notes` loop has mutated every note
object in the live list in place. -/
def updated_heap (now : ℚ) (s : St) : List (Nat × DDRNote) :=
  s.heap.map (fun p => if p.1 ∈ s.notes then (p.1, update_note now p.2) else p)

/-- `update_ddr_notes` from `streampad.py`: every note in the live list is
updated in place, then the off-screen ones are removed from the list. -/
def update_ddr_notes (now : ℚ) (s : St) : St :=
  { s with heap := updated_heap now s
           notes := s.notes.filter (fun r =>
             match dget (updated_heap now s) r with
             | some n => !should_remove n
             | none => true) }

/-- `emergency_cleanup` from `streampad.py`: clears the button state store,
every last-known raw-state snapshot, the hat timestamps, and both note
collections.  (The trailing loop over `self.active_notes` in the source
iterates a dict that was just cleared, so it does nothing.) -/
def emergency_cleanup (s : St) : St :=
  { s with button_states := []
           last_button_states := []
           last_axis_states := []
           last_global_button_states := []
           last_hat_state := (0, 0)
           last_global_hat_state := (0, 0)
           last_hat_event_time := 0
           active_notes := []
           notes := [] }

/-- `_hat_debounce_active` from `streampad.py`. -/
def hat_debounce_active (now : ℚ) (s : St) : Bool :=
  decide ((now - s.last_hat_event_time) * 1000 ≤ hat_button_debounce_ms)

/-- The `JOYBUTTONDOWN` branch of `handle_events` in `streampad.py` for an
event from the active controller.  The hat-only and hat-debounce suppression
block that 4.3 of the spec describes is commented out in the source
("TEMPORARILY DISABLED suppression"), so this path applies no suppression. -/
def handle_joybuttondown (now : ℚ) (s : St) (button : Nat) : St :=
  match get_button_mapping s.controller_type button with
  | some id => on_button_press now s id
  | none => s

/-- The `JOYBUTTONUP` branch of `handle_events` in `streampad.py`; its
suppression block is likewise commented out in the source. -/
def handle_joybuttonup (now : ℚ) (s : St) (button : Nat) : St :=
  match get_button_mapping s.controller_type button with
  | some id => on_button_release now s id
  | none => s

/-- The four desired d-pad states derived from a hat vector, as in both
`check_global_hat` and the `JOYHATMOTION` branch of `handle_events`. -/
def hat_desired (hx hy : Int) (bid : String) : Bool :=
  if bid = "14" then decide (hx < 0)
  else if bid = "15" then decide (hx > 0)
  else if bid = "12" then decide (hy > 0)
  else if bid = "13" then decide (hy < 0)
  else false

/-- The per-direction loop shared by the hat handlers: a false→true edge
emits press, a true→false edge emits release. -/
def hat_apply (now : ℚ) (hx hy px py : Int) : St → List String → St
  | s, [] => s
  | s, bid :: rest =>
      let s1 := if hat_desired hx hy bid && !hat_desired px py bid then
          on_button_press now s bid
        else s
      let s2 := if !hat_desired hx hy bid && hat_desired px py bid then
          on_button_release now s1 bid
        else s1
      hat_apply now hx hy px py s2 rest

/-- The `JOYHATMOTION` branch of `handle_events` in `streampad.py`:
stamps `last_hat_event_time`, runs the edge loop against the previous hat
state, then records the new hat state. -/
def handle_joyhatmotion (now : ℚ) (s : St) (hx hy : Int) : St :=
  let s1 : St := { s with last_hat_event_time := now }
  let s2 := hat_apply now hx hy s1.last_hat_state.1 s1.last_hat_state.2 s1
    ["14", "15", "12", "13"]
  { s2 with last_hat_state := (hx, hy) }

/-- Outcome of one iteration of the background button loop: either the
iteration completes with the new shared state, or the thread blocks forever.
`check_global_controller_input` wraps its emission calls in
`with self.global_input_lock:`, and `on_button_press` / `on_button_release`
re-acquire the same non-reentrant `threading.Lock` as their first action, so
every background emission attempt deadlocks before mutating anything; the
carried state is the shared state at the moment the thread blocked. -/
inductive BgOutcome where
  | ok (s : St)
  | deadlock (s : St)
deriving DecidableEq, Repr

/-- One iteration of the button loop in `check_global_controller_input`
(the background polling path), for raw index `i` currently reading
`is_pressed`.  During the hat debounce window (and, in hat-only mode, for
raw indices 12–15 always) only the last-known snapshot is refreshed.  A
genuine edge on a raw index with a mapping reaches the lock-wrapped
`on_button_press`/`on_button_release` call, which re-acquires the
non-reentrant global lock and blocks forever: no canonical transition is
applied and the snapshot write after the emission is never reached. -/
def global_button_step (now : ℚ) (s : St) (i : Nat) (is_pressed : Bool) :
    BgOutcome :=
  let suppress_buttons := s.nintendo_hat_only && hat_debounce_active now s
  let was_pressed := (dget s.last_global_button_states i).getD false
  if suppress_buttons then
    BgOutcome.ok { s with
      last_global_button_states := dset s.last_global_button_states i is_pressed }
  else if s.nintendo_hat_only && decide (i = 12 ∨ i = 13 ∨ i = 14 ∨ i = 15) then
    BgOutcome.ok { s with
      last_global_button_states := dset s.last_global_button_states i is_pressed }
  else if is_pressed && !was_pressed then
    match get_button_mapping s.controller_type i with
    | some _ => BgOutcome.deadlock s
    | none => BgOutcome.ok { s with
        last_global_button_states := dset s.last_global_button_states i is_pressed }
  else if !is_pressed && was_pressed then
    match get_button_mapping s.controller_type i with
    | some _ => BgOutcome.deadlock s
    | none => BgOutcome.ok { s with
        last_global_button_states := dset s.last_global_button_states i is_pressed }
  else
    BgOutcome.ok { s with
      last_global_button_states := dset s.last_global_button_states i is_pressed }

/-- Python exceptions that the embedded code can raise. -/
inductive PyErr where
  | typeError
deriving DecidableEq, Repr

/-- The stuck-button scan of `validate_button_states`, over the entries of
`self.button_states` with the accumulated `stuck_buttons` list.  For every
entry marked pressed the source executes
`button_mapping = self.get_button_mapping()`; `get_button_mapping` requires
its `pygame_button` argument, so Python raises `TypeError` at that call,
before the physical button is ever read and before anything is appended to
`stuck_buttons`.  The error value carries the `stuck_buttons` list as it
stood when the exception was raised. -/
def validate_scan :
    List (String × Bool) → List String →
    Except (PyErr × List String) (List String)
  | [], stuck => Except.ok stuck
  | (_, is_pressed) :: rest, stuck =>
      if is_pressed then Except.error (PyErr.typeError, stuck)
      else validate_scan rest stuck

/-- `validate_button_states` from `streampad.py`: returns unchanged without
an initialized active controller; otherwise scans for stuck buttons and
releases them, falling back — only when the scan both raised and had already
collected a stuck button (`if stuck_buttons:` in the handler) — to
`emergency_cleanup`.  `phys` is the physical `get_button` read; the source
never reaches it because the mapping lookup raises first, so the result
cannot depend on it. -/
def validate_button_states (now : ℚ) (s : St) (_phys : Nat → Bool)
    (has_controller : Bool) : St :=
  if has_controller then
    match validate_scan s.button_states [] with
    | Except.ok stuck => stuck.foldl (fun t id => on_button_release now t id) s
    | Except.error e => if e.2 ≠ [] then emergency_cleanup s else s
  else s

/-- A state in which `button_states["1"]` has been forced to `True` with no
matching physical press (the reconciliation scenario of the spec). -/
def c1_state : St :=
  { init_state ControllerType.generic false 85 500 with
      button_states := [("1", true)] }

/-- A hat-only generic-family session in which a hat event has just fired at
time 0 (stamping `last_hat_event_time`). -/
def c2_state : St :=
  handle_joyhatmotion 0 (init_state ControllerType.generic true 85 500) 0 0

/-- A hat-only SwitchPro session in which a hat event has just fired at
time 0. -/
def c2_sp_state : St :=
  handle_joyhatmotion 0 (init_state ControllerType.switch_pro true 85 500) 0 0

/-- Fresh session for the press/release/press scenario. -/
def c4_s0 : St := init_state ControllerType.generic false 85 500

/-- After a canonical press of id "1" at time 0. -/
def c4_s1 : St := on_button_press 0 c4_s0 "1"

/-- After the release of id "1" at time 1: note 0 is now Releasing but
still in the live collection. -/
def c4_s2 : St := on_button_release 1 c4_s1 "1"

/-- After a second press of id "1" at time 2, while note 0 is still live. -/
def c4_s3 : St := on_button_press 2 c4_s2 "1"

/-- A state with a pressed id and a live note, fed to the reconciliation
check (whose scan raises on the pressed entry). -/
def c5_state : St :=
  on_button_press 0 (init_state ControllerType.generic false 85 500) "1"

/-- The note created by pressing id "1" at time 0 in a fresh session. -/
def c8_growing_note : DDRNote :=
  mk_note 0 (init_state ControllerType.generic false 85 500) "1"

/-- The same note frozen at height 48 and released at time 0.5, with its
baseline anchor generalized to `b`. -/
def c8_released_note (b : ℚ) : DDRNote :=
  { c8_growing_note with
      height := 48
      is_growing := false
      end_time := some (1/2)
      initial_bottom := b }

/-- A session holding the growing note, for running `update_ddr_notes`. -/
def c8_state : St :=
  { init_state ControllerType.generic false 85 500 with
      button_states := [("1", true)]
      heap := [(0, c8_growing_note)]
      next_ref := 1
      notes := [0]
      active_notes := [("1", 0)] }

/-- A reachable state holding one growing note owned by id "1". -/
def c9_witness_state : St :=
  on_button_press 0 (init_state ControllerType.generic false 85 500) "1"

/-- The note that the press in `c9_witness_state` allocates. -/
def c9_note : DDRNote :=
  mk_note 0 (init_state ControllerType.generic false 85 500) "1"

/-- The operations of the note-lifecycle claim: canonical press and release,
the per-frame note update/purge, the emergency reset, and the periodic
reconciliation check. -/
inductive Step : St → St → Prop where
  | press (s : St) (now : ℚ) (id : String) : Step s (on_button_press now s id)
  | release (s : St) (now : ℚ) (id : String) :
      Step s (on_button_release now s id)
  | update (s : St) (now : ℚ) : Step s (update_ddr_notes now s)
  | cleanup (s : St) : Step s (emergency_cleanup s)
  | validate (s : St) (now : ℚ) (phys : Nat → Bool) (hc : Bool) :
      Step s (validate_button_states now s phys hc)

/-- States reachable from a freshly initialized session by the state-mutating
operations. -/
inductive Reachable : St → Prop where
  | init (ct : ControllerType) (nho : Bool) (lw lh : ℚ) :
      Reachable (init_state ct nho lw lh)
  | step (s t : St) : Reachable s → Step s t → Reachable t

/-- The inductive invariant tying the live note list, the active-notes map,
the heap and the button state store together.  `growing_active` is the heart
of the at-most-one-growing-note-per-id property. -/
structure Inv (s : St) : Prop where
  notes_lt : ∀ r ∈ s.notes, r < s.next_ref
  active_lt : ∀ id r, dget s.active_notes id = some r → r < s.next_ref
  active_ok : ∀ id r, dget s.active_notes id = some r →
    ∃ n, dget s.heap r = some n ∧ n.button_id = id ∧ n.is_growing = true
  growing_active : ∀ r n, r ∈ s.notes → dget s.heap r = some n →
    n.is_growing = true → dget s.active_notes n.button_id = some r
  growing_pressed : ∀ r n, r ∈ s.notes → dget s.heap r = some n →
    n.is_growing = true → dget s.button_states n.button_id = some true

theorem dget_dset_self {α β : Type} [DecidableEq α]
    (l : List (α × β)) (a : α) (b : β) : dget (dset l a b) a = some b := by
  induction l with
  | nil => simp [dget, dset]
  | cons p rest ih =>
      by_cases h : a = p.1
      · simp [dget, dset, h]
      · simp [dget, dset, h, ih]

theorem dget_dset_ne {α β : Type} [DecidableEq α]
    (l : List (α × β)) (a a' : α) (b : β) (h : a' ≠ a) :
    dget (dset l a b) a' = dget l a' := by
  induction l with
  | nil => simp [dget, dset, h]
  | cons p rest ih =>
      by_cases hk : a = p.1
      · subst hk
        simp [dget, dset, h]
      · by_cases hk' : a' = p.1
        · simp [dget, dset, hk, hk']
        · simp [dget, dset, hk, hk', ih]

theorem dget_ddel_self {α β : Type} [DecidableEq α]
    (l : List (α × β)) (a : α) : dget (ddel l a) a = none := by
  induction l with
  | nil => simp [dget, ddel]
  | cons p rest ih =>
      by_cases h : p.1 = a
      · simpa [ddel, h] using ih
      · have ha : a ≠ p.1 := fun hh => h hh.symm
        simp [ddel, dget, h, ha, ih]

theorem dget_ddel_ne {α β : Type} [DecidableEq α]
    (l : List (α × β)) (a a' : α) (h : a' ≠ a) :
    dget (ddel l a) a' = dget l a' := by
  induction l with
  | nil => simp [dget, ddel]
  | cons p rest ih =>
      by_cases hk : p.1 = a
      · have hne : a' ≠ p.1 := fun hh => h (hk ▸ hh)
        simpa [ddel, dget, hk, hne, h] using ih
      · by_cases hk' : a' = p.1
        · simp [ddel, dget, hk, hk']
        · simp [ddel, dget, hk, hk', ih]


theorem press_of_pressed (now : ℚ) (s : St) (id : String)
    (h : dget s.button_states id = some true) :
    on_button_press now s id = s := by
  unfold on_button_press
  rw [if_pos h]

theorem press_button_states (now : ℚ) (s : St) (id : String)
    (h : ¬ dget s.button_states id = some true) :
    (on_button_press now s id).button_states = dset s.button_states id true := by
  unfold on_button_press create_ddr_note
  rw [if_neg h]
  by_cases hb : id ∈ BUTTON_ORDER <;> simp [hb]

theorem press_total (now : ℚ) (s : St) (id : String)
    (h : ¬ dget s.button_states id = some true) :
    (on_button_press now s id).total_presses = s.total_presses + 1 := by
  unfold on_button_press create_ddr_note
  rw [if_neg h]
  by_cases hb : id ∈ BUTTON_ORDER <;> simp [hb]

theorem press_events (now : ℚ) (s : St) (id : String)
    (h : ¬ dget s.button_states id = some true) :
    (on_button_press now s id).events = s.events ++ [Ev.press id] := by
  unfold on_button_press create_ddr_note
  rw [if_neg h]
  by_cases hb : id ∈ BUTTON_ORDER <;> simp [hb]

theorem end_ddr_note_button_states (now : ℚ) (s : St) (id : String) :
    (end_ddr_note now s id).button_states = s.button_states := by
  unfold end_ddr_note
  split
  · rfl
  · split <;> rfl

theorem end_ddr_note_events (now : ℚ) (s : St) (id : String) :
    (end_ddr_note now s id).events = s.events := by
  unfold end_ddr_note
  split
  · rfl
  · split <;> rfl

theorem release_of_not_pressed (now : ℚ) (s : St) (id : String)
    (h : ¬ dget s.button_states id = some true) :
    on_button_release now s id = s := by
  unfold on_button_release
  rw [if_neg h]

theorem release_button_states (now : ℚ) (s : St) (id : String)
    (h : dget s.button_states id = some true) :
    (on_button_release now s id).button_states = dset s.button_states id false := by
  unfold on_button_release
  rw [if_pos h, end_ddr_note_button_states]

theorem release_events (now : ℚ) (s : St) (id : String)
    (h : dget s.button_states id = some true) :
    (on_button_release now s id).events = s.events ++ [Ev.release id] := by
  unfold on_button_release
  rw [if_pos h, end_ddr_note_events]

theorem validate_scan_stuck_empty (l : List (String × Bool)) :
    validate_scan l [] = Except.ok [] ∨
    validate_scan l [] = Except.error (PyErr.typeError, []) := by
  induction l with
  | nil => exact Or.inl rfl
  | cons p rest ih =>
      obtain ⟨a, b⟩ := p
      cases b
      · simpa [validate_scan] using ih
      · exact Or.inr (by simp [validate_scan])

theorem validate_button_states_eq_self (now : ℚ) (s : St) (phys : Nat → Bool)
    (hc : Bool) : validate_button_states now s phys hc = s := by
  unfold validate_button_states
  cases hc
  · rfl
  · rcases validate_scan_stuck_empty s.button_states with h | h <;> simp [h]

/-- C1: the spec claims the periodic reconciliation forcibly releases every
logical id marked pressed whose mapped physical button reads not-pressed.
In the code, `validate_button_states` calls `self.get_button_mapping()`
without its required `pygame_button` argument, so the scan raises
`TypeError` at the first pressed entry; the handler's `if stuck_buttons:`
guard then sees an empty list and does nothing.  At the spec's own scenario
(`button_states["1"] = True`, every physical button reading not-pressed)
the check returns the state unchanged and id "1" stays pressed. -/
theorem c1_stuck_button_never_released :
    dget c1_state.button_states "1" = some true ∧
    validate_scan c1_state.button_states [] =
      Except.error (PyErr.typeError, []) ∧
    validate_button_states 2 c1_state (fun _ => false) true = c1_state ∧
    dget (validate_button_states 2 c1_state (fun _ => false) true).button_states
      "1" = some true := by
  refine ⟨by decide, by simp [c1_state, init_state, validate_scan],
    validate_button_states_eq_self 2 c1_state (fun _ => false) true, ?_⟩
  rw [validate_button_states_eq_self]
  decide

/-- C3 counterexample: for the SwitchPro family in `streampad.py`, raw
indices 5 and 15 do not keep their generic mappings "5" and "15" — the
family table replaces the generic table wholesale and maps them to none. -/
theorem c3_switch_pro_drops_generic_entries :
    ¬ (get_button_mapping ControllerType.switch_pro 5 = some "5" ∧
       get_button_mapping ControllerType.switch_pro 15 = some "15") ∧
    get_button_mapping ControllerType.switch_pro 5 = none ∧
    get_button_mapping ControllerType.switch_pro 15 = none ∧
    generic_mapping 5 = some "5" ∧
    generic_mapping 15 = some "15" := by
  decide

/-- C3 amended: in `streampad.py` the override semantics (family entries
replace the generic entry where present, generic entries apply elsewhere)
hold for the SnesSwitch family, whose table is applied with `dict.update`;
the SwitchPro table instead replaces the generic table wholesale, so indices
it does not cover (such as 5 and 15) map to none.  In `streampad_pygame.py`
the SwitchPro table also replaces the generic one but itself covers 0..17,
in particular mapping 5 to "5" and 15 to "15". -/
theorem c3_override_semantics_amended (i : Nat) :
    (snes_switch_updates i = none →
      get_button_mapping ControllerType.snes_switch i = generic_mapping i) ∧
    (∀ v, snes_switch_updates i = some v →
      get_button_mapping ControllerType.snes_switch i = some v) ∧
    get_button_mapping ControllerType.snes_switch 11 = some "12" ∧
    generic_mapping 11 = some "5" ∧
    get_button_mapping ControllerType.switch_pro 5 = none ∧
    get_button_mapping ControllerType.switch_pro 15 = none ∧
    Pyg.get_button_mapping ControllerType.switch_pro 5 = some "5" ∧
    Pyg.get_button_mapping ControllerType.switch_pro 15 = some "15" := by
  refine ⟨?_, ?_, by decide, by decide, by decide, by decide, by decide, by decide⟩
  · intro h
    simp [get_button_mapping, h]
  · intro v h
    simp [get_button_mapping, h]

/-- Witness for the amended C3 theorem: raw index 7 is not overridden for
SnesSwitch, so the generic entry applies; raw index 11 is overridden. -/
theorem c3_override_semantics_amended_witness :
    get_button_mapping ControllerType.snes_switch 7 = generic_mapping 7 ∧
    get_button_mapping ControllerType.snes_switch 11 = some "12" :=
  ⟨(c3_override_semantics_amended 7).1 rfl,
   (c3_override_semantics_amended 11).2.1 "12" rfl⟩

/-- C4 counterexample: press id "1" at time 0, release it at time 1 (note
0 is now Releasing and still in the live collection), then press id "1"
again at time 2.  The second press creates a new note (the live list becomes
[0, 1]) even though a Releasing note owned by "1" is still live — the claim
says no new note is created while a Growing or Releasing note owns the id. -/
theorem c4_press_during_releasing_creates_new_note :
    (0 : Nat) ∈ c4_s2.notes ∧
    (dget c4_s2.heap 0).map DDRNote.button_id = some "1" ∧
    (dget c4_s2.heap 0).map DDRNote.is_growing = some false ∧
    (dget c4_s2.heap 0).map DDRNote.end_time = some (some 1) ∧
    c4_s3.notes = [0, 1] ∧
    dget c4_s3.active_notes "1" = some 1 := by
  decide

/-- C4 amended: a canonical press creates no new note exactly when the
button state store already marks the id pressed (the situation while a
Growing note owns the id); a Releasing note still in the live collection
does not block creation — the press appends a fresh note to the live list
and repoints the active-notes entry at it. -/
theorem c4_growing_blocks_creation_releasing_does_not (now : ℚ) (s : St)
    (id : String) :
    (dget s.button_states id = some true → on_button_press now s id = s) ∧
    (¬ dget s.button_states id = some true → id ∈ BUTTON_ORDER →
      (on_button_press now s id).notes = s.notes ++ [s.next_ref] ∧
      dget (on_button_press now s id).active_notes id = some s.next_ref) := by
  constructor
  · intro h
    exact press_of_pressed now s id h
  · intro h hb
    unfold on_button_press create_ddr_note
    rw [if_neg h, if_pos hb]
    exact ⟨rfl, dget_dset_self _ _ _⟩

/-- Witness for the amended C4 theorem, applied at the state in which note 0
is Releasing and id "1" is released: the press goes through and appends
note 1. -/
theorem c4_growing_blocks_creation_releasing_does_not_witness :
    (on_button_press 2 c4_s2 "1").notes = c4_s2.notes ++ [c4_s2.next_ref] ∧
    dget (on_button_press 2 c4_s2 "1").active_notes "1" =
      some c4_s2.next_ref :=
  (c4_growing_blocks_creation_releasing_does_not 2 c4_s2 "1").2
    (by decide) (by decide)

/-- C5 counterexample: with `button_states["1"] = True` and a live note, the
reconciliation scan raises, yet the resulting state is unchanged — nothing
is cleared, unlike the full emergency reset the claim requires (shown for
contrast on the same state). -/
theorem c5_error_without_emergency_reset :
    validate_scan c5_state.button_states [] =
      Except.error (PyErr.typeError, []) ∧
    validate_button_states 2 c5_state (fun _ => false) true = c5_state ∧
    c5_state.notes = [0] ∧
    dget c5_state.button_states "1" = some true ∧
    (emergency_cleanup c5_state).notes = [] ∧
    (emergency_cleanup c5_state).button_states = [] := by
  refine ⟨rfl, validate_button_states_eq_self 2 c5_state (fun _ => false) true,
    ?_, ?_, rfl, rfl⟩ <;> decide

/-- C5 amended: when the reconciliation check raises, the handler performs
the emergency reset only if at least one stuck button had been recorded
before the error; since the `TypeError` from the argument-less
`get_button_mapping()` call is raised at the first pressed entry, before
anything is recorded, an erroring check leaves the whole state unchanged —
no reset and no partial patching ever happens. -/
theorem c5_reconciliation_never_mutates_state (now : ℚ) (s : St)
    (phys : Nat → Bool) (hc : Bool) :
    validate_button_states now s phys hc = s :=
  validate_button_states_eq_self now s phys hc

/-- C6: from a state where the id is not pressed, press followed immediately
by a second press increments the total press counter exactly once, and the
second press is a no-op leaving the entire state (store, counters, note
collections) unchanged. -/
theorem c6_double_press_idempotent (now now2 : ℚ) (s : St) (id : String)
    (h : ¬ dget s.button_states id = some true) :
    on_button_press now2 (on_button_press now s id) id =
      on_button_press now s id ∧
    (on_button_press now s id).total_presses = s.total_presses + 1 := by
  constructor
  · have hb : dget (on_button_press now s id).button_states id = some true := by
      rw [press_button_states now s id h]
      exact dget_dset_self _ _ _
    exact press_of_pressed now2 (on_button_press now s id) id hb
  · exact press_total now s id h

/-- Witness for C6 at a fresh session and id "1". -/
theorem c6_double_press_idempotent_witness :
    on_button_press 1 (on_button_press 0 c4_s0 "1") "1" =
      on_button_press 0 c4_s0 "1" ∧
    (on_button_press 0 c4_s0 "1").total_presses = c4_s0.total_presses + 1 :=
  c6_double_press_idempotent 0 1 c4_s0 "1" (by decide)

/-- C10: a press for a logical id outside `BUTTON_ORDER` (such as "10" and
"11", produced by the SwitchPro mapping for the stick clicks at raw indices
7 and 8) marks the id pressed and bumps both counters, but `create_ddr_note`
returns before allocating, so the live note list, the active-notes map and
the note heap are all left unchanged. -/
theorem c10_non_lane_press_touches_no_notes (now : ℚ) (s : St) (id : String)
    (hl : id ∉ BUTTON_ORDER) (h : ¬ dget s.button_states id = some true) :
    dget (on_button_press now s id).button_states id = some true ∧
    (on_button_press now s id).button_press_count =
      dset s.button_press_count id
        ((dget s.button_press_count id).getD 0 + 1) ∧
    (on_button_press now s id).total_presses = s.total_presses + 1 ∧
    (on_button_press now s id).notes = s.notes ∧
    (on_button_press now s id).active_notes = s.active_notes ∧
    (on_button_press now s id).heap = s.heap ∧
    get_button_mapping ControllerType.switch_pro 7 = some "10" ∧
    get_button_mapping ControllerType.switch_pro 8 = some "11" ∧
    "10" ∉ BUTTON_ORDER ∧ "11" ∉ BUTTON_ORDER := by
  unfold on_button_press create_ddr_note
  rw [if_neg h, if_neg hl]
  exact ⟨dget_dset_self _ _ _, rfl, rfl, rfl, rfl, rfl,
    by decide, by decide, by decide, by decide⟩

/-- Witness for C10 at a fresh session and id "10". -/
theorem c10_non_lane_press_touches_no_notes_witness :
    dget (on_button_press 0 c4_s0 "10").button_states "10" = some true ∧
    (on_button_press 0 c4_s0 "10").button_press_count =
      dset c4_s0.button_press_count "10"
        ((dget c4_s0.button_press_count "10").getD 0 + 1) ∧
    (on_button_press 0 c4_s0 "10").total_presses = c4_s0.total_presses + 1 ∧
    (on_button_press 0 c4_s0 "10").notes = c4_s0.notes ∧
    (on_button_press 0 c4_s0 "10").active_notes = c4_s0.active_notes ∧
    (on_button_press 0 c4_s0 "10").heap = c4_s0.heap ∧
    get_button_mapping ControllerType.switch_pro 7 = some "10" ∧
    get_button_mapping ControllerType.switch_pro 8 = some "11" ∧
    "10" ∉ BUTTON_ORDER ∧ "11" ∉ BUTTON_ORDER :=
  c10_non_lane_press_touches_no_notes 0 c4_s0 "10" (by decide) (by decide)

/-- C2 counterexample: with `hat_only_dpad` true and a hat event 10ms ago
(inside the 30ms window), a button event on the foreground event path is not
ignored: the suppression block in `handle_events` is commented out, so raw
index 0 is processed and a canonical press of "1" is emitted. -/
theorem c2_foreground_button_during_debounce_emitted :
    c2_state.nintendo_hat_only = true ∧
    hat_debounce_active (1/100) c2_state = true ∧
    (handle_joybuttondown (1/100) c2_state 0).events = [Ev.press "1"] ∧
    dget (handle_joybuttondown (1/100) c2_state 0).button_states "1" =
      some true := by
  have h0 : c2_state.last_hat_event_time = 0 := by decide
  have hbs : ¬ dget c2_state.button_states "1" = some true := by decide
  have hev : c2_state.events = [] := by decide
  have hmap : get_button_mapping c2_state.controller_type 0 = some "1" := by
    decide
  refine ⟨by decide, ?_, ?_, ?_⟩
  · unfold hat_debounce_active
    rw [h0, decide_eq_true_eq]
    norm_num [hat_button_debounce_ms]
  · unfold handle_joybuttondown
    rw [hmap, press_events (1/100) c2_state "1" hbs, hev]
    rfl
  · unfold handle_joybuttondown
    rw [hmap, press_button_states (1/100) c2_state "1" hbs]
    exact dget_dset_self _ _ _

/-- C2 amended: with `hat_only_dpad` true, the background polling path never
emits a canonical press or release.  Inside the 30ms debounce window a
button transition only refreshes the last-known snapshot; raw indices 12–15
are dropped on that path even outside the window; and a genuine edge on any
other mapped raw index — SwitchPro raw 11, mapped to d-pad up "12",
arriving 40ms after the hat event — reaches the emission wrapped in the
global lock, which `on_button_press` re-acquires (a non-reentrant lock), so
the thread deadlocks and the press is never applied, leaving the state
unchanged.  On the foreground event path the suppression is commented out in
the source, so button events are processed regardless of hat timing. -/
theorem c2_debounce_only_on_background_path (now : ℚ) (s : St)
    (i : Nat) (p : Bool) (hn : s.nintendo_hat_only = true)
    (hd : (now - s.last_hat_event_time) * 1000 ≤ hat_button_debounce_ms) :
    global_button_step now s i p = BgOutcome.ok { s with
      last_global_button_states := dset s.last_global_button_states i p } ∧
    global_button_step (4/100) c2_sp_state 11 true =
      BgOutcome.deadlock c2_sp_state ∧
    global_button_step (4/100) c2_state 14 true =
      BgOutcome.ok { c2_state with
        last_global_button_states :=
          dset c2_state.last_global_button_states 14 true } ∧
    (handle_joybuttondown (1/100) c2_state 2).events = [Ev.press "2"] := by
  have hdb : hat_debounce_active now s = true := by
    unfold hat_debounce_active
    exact decide_eq_true hd
  have hsp0 : c2_sp_state.last_hat_event_time = 0 := by decide
  have h0 : c2_state.last_hat_event_time = 0 := by decide
  have hdb40sp : hat_debounce_active (4/100) c2_sp_state = false := by
    unfold hat_debounce_active
    rw [hsp0, decide_eq_false_iff_not]
    norm_num [hat_button_debounce_ms]
  have hdb40 : hat_debounce_active (4/100) c2_state = false := by
    unfold hat_debounce_active
    rw [h0, decide_eq_false_iff_not]
    norm_num [hat_button_debounce_ms]
  refine ⟨?_, ?_, ?_, ?_⟩
  · simp [global_button_step, hn, hdb]
  · have hn2 : c2_sp_state.nintendo_hat_only = true := by decide
    have hwas : (dget c2_sp_state.last_global_button_states 11).getD false =
        false := by decide
    have hmap : get_button_mapping c2_sp_state.controller_type 11 =
        some "12" := by decide
    simp [global_button_step, hdb40sp, hn2, hwas, hmap]
  · have hn3 : c2_state.nintendo_hat_only = true := by decide
    simp [global_button_step, hdb40, hn3]
  · have hbs2 : ¬ dget c2_state.button_states "2" = some true := by decide
    have hev : c2_state.events = [] := by decide
    have hmap : get_button_mapping c2_state.controller_type 2 = some "2" := by
      decide
    unfold handle_joybuttondown
    rw [hmap, press_events (1/100) c2_state "2" hbs2, hev]
    rfl

/-- Witness for the amended C2 theorem: a background button transition on
raw index 0, 10ms after the hat event, completes and refreshes only the
snapshot, while the 40ms SwitchPro raw-11 edge deadlocks unapplied. -/
theorem c2_debounce_only_on_background_path_witness :
    global_button_step (1/100) c2_state 0 true = BgOutcome.ok { c2_state with
      last_global_button_states :=
        dset c2_state.last_global_button_states 0 true } ∧
    global_button_step (4/100) c2_sp_state 11 true =
      BgOutcome.deadlock c2_sp_state ∧
    global_button_step (4/100) c2_state 14 true =
      BgOutcome.ok { c2_state with
        last_global_button_states :=
          dset c2_state.last_global_button_states 14 true } ∧
    (handle_joybuttondown (1/100) c2_state 2).events = [Ev.press "2"] :=
  c2_debounce_only_on_background_path (1/100) c2_state 0 true (by decide)
    (by rw [show c2_state.last_hat_event_time = 0 from by decide]
        norm_num [hat_button_debounce_ms])

/-- C8: the note kinematics are a pure function of wall-clock time.  While
growing, the updated height is 8 plus elapsed milliseconds times 0.08 (48
after 500ms); after release, the updated top edge is the baseline anchor
minus the frozen height minus elapsed-since-release milliseconds times 0.15
(baseline minus 198 at 1000ms after releasing a height-48 note), shown both
for the loop body and through `update_ddr_notes`. -/
theorem c8_note_kinematics (t : ℚ) (n : DDRNote) :
    (n.is_growing = true →
      (update_note t n).height = 8 + (t - n.start_time) * 1000 * 0.08) ∧
    (∀ te, n.is_growing = false → n.end_time = some te →
      (update_note t n).y =
        n.initial_bottom - n.height - (t - te) * 1000 * 0.15) ∧
    (update_note (1/2) c8_growing_note).height = 48 ∧
    (∀ b, (update_note (3/2) (c8_released_note b)).y = b - 198) ∧
    (dget (update_ddr_notes (1/2) c8_state).heap 0).map DDRNote.height =
      some 48 := by
  have h48 : (update_note (1/2) c8_growing_note).height = 48 := by
    unfold update_note
    rw [if_pos (show c8_growing_note.is_growing = true from rfl)]
    rw [show c8_growing_note.start_time = 0 from rfl]
    norm_num [min_note_height, growth_rate]
  refine ⟨?_, ?_, h48, ?_, ?_⟩
  · intro hg
    unfold update_note
    rw [if_pos hg]
    norm_num [min_note_height, growth_rate]
  · intro te hg he
    unfold update_note
    rw [if_neg (by rw [hg]; exact Bool.false_ne_true), he]
    norm_num [note_speed]
  · intro b
    have hng : ¬ (c8_released_note b).is_growing = true := by
      rw [show (c8_released_note b).is_growing = false from rfl]
      exact Bool.false_ne_true
    unfold update_note
    rw [if_neg hng, show (c8_released_note b).end_time = some (1/2) from rfl]
    rw [show (c8_released_note b).initial_bottom = b from rfl,
      show (c8_released_note b).height = 48 from rfl]
    norm_num [note_speed]
    ring
  · rw [show (update_ddr_notes (1/2) c8_state).heap =
      [(0, update_note (1/2) c8_growing_note)] from rfl]
    rw [show dget [(0, update_note (1/2) c8_growing_note)] 0 =
      some (update_note (1/2) c8_growing_note) from rfl]
    show some (update_note (1/2) c8_growing_note).height = some 48
    rw [h48]

/-- Witness for C8: the growing-branch formula applied to the concrete note
created at time 0, updated at time 0.5. -/
theorem c8_note_kinematics_witness :
    (update_note (1/2) c8_growing_note).height =
      8 + ((1/2 : ℚ) - c8_growing_note.start_time) * 1000 * 0.08 :=
  (c8_note_kinematics (1/2) c8_growing_note).1 rfl

/-- C7: starting from hat state (0,0) with id "14" not pressed, processing
hat vector (-1,0) and then (0,0) emits exactly press("14") followed by
release("14") — in particular nothing for the opposite id "15" and nothing
for "12"/"13", whose desired state never changes. -/
theorem c7_hat_left_then_center_emits_press_release (t1 t2 : ℚ) (s : St)
    (hh : s.last_hat_state = (0, 0))
    (hp : ¬ dget s.button_states "14" = some true) :
    (handle_joyhatmotion t2 (handle_joyhatmotion t1 s (-1) 0) 0 0).events =
      s.events ++ [Ev.press "14", Ev.release "14"] := by
  have hp1 : ¬ dget ({ s with last_hat_event_time := t1 } : St).button_states
      "14" = some true := hp
  have e1 : handle_joyhatmotion t1 s (-1) 0 =
      { on_button_press t1 { s with last_hat_event_time := t1 } "14" with
          last_hat_state := (-1, 0) } := by
    simp [handle_joyhatmotion, hat_apply, hat_desired, hh]
  have hb1 : dget (handle_joyhatmotion t1 s (-1) 0).button_states "14" =
      some true := by
    rw [e1]
    show dget (on_button_press t1 { s with last_hat_event_time := t1 } "14"
      ).button_states "14" = some true
    rw [press_button_states t1 _ "14" hp1]
    exact dget_dset_self _ _ _
  have hev1 : (handle_joyhatmotion t1 s (-1) 0).events =
      s.events ++ [Ev.press "14"] := by
    rw [e1]
    show (on_button_press t1 { s with last_hat_event_time := t1 } "14"
      ).events = s.events ++ [Ev.press "14"]
    rw [press_events t1 _ "14" hp1]
  have e2 : handle_joyhatmotion t2 (handle_joyhatmotion t1 s (-1) 0) 0 0 =
      { on_button_release t2
          { handle_joyhatmotion t1 s (-1) 0 with last_hat_event_time := t2 }
          "14" with last_hat_state := (0, 0) } := by
    rw [e1]
    simp [handle_joyhatmotion, hat_apply, hat_desired]
  have hb1' : dget ({ handle_joyhatmotion t1 s (-1) 0 with
      last_hat_event_time := t2 } : St).button_states "14" = some true := hb1
  rw [e2]
  show (on_button_release t2
      { handle_joyhatmotion t1 s (-1) 0 with last_hat_event_time := t2 }
      "14").events = s.events ++ [Ev.press "14", Ev.release "14"]
  rw [release_events t2 _ "14" hb1']
  rw [show ({ handle_joyhatmotion t1 s (-1) 0 with
      last_hat_event_time := t2 } : St).events =
      (handle_joyhatmotion t1 s (-1) 0).events from rfl, hev1]
  simp

/-- Witness for C7 at a fresh generic session with hat events at times 1
and 2. -/
theorem c7_hat_left_then_center_emits_press_release_witness :
    (handle_joyhatmotion 2
        (handle_joyhatmotion 1 (init_state ControllerType.generic false 85 500)
          (-1) 0) 0 0).events =
      (init_state ControllerType.generic false 85 500).events ++
        [Ev.press "14", Ev.release "14"] :=
  c7_hat_left_then_center_emits_press_release 1 2
    (init_state ControllerType.generic false 85 500) (by decide) (by decide)

theorem update_note_is_growing (now : ℚ) (n : DDRNote) :
    (update_note now n).is_growing = n.is_growing := by
  unfold update_note
  split
  · rfl
  · split <;> rfl

theorem update_note_button_id (now : ℚ) (n : DDRNote) :
    (update_note now n).button_id = n.button_id := by
  unfold update_note
  split
  · rfl
  · split <;> rfl

theorem dget_map_update (now : ℚ) (notesL : List Nat)
    (l : List (Nat × DDRNote)) (r : Nat) :
    dget (l.map (fun p =>
        if p.1 ∈ notesL then (p.1, update_note now p.2) else p)) r =
      if r ∈ notesL then (dget l r).map (update_note now) else dget l r := by
  induction l with
  | nil => by_cases hr : r ∈ notesL <;> simp [dget, hr]
  | cons p rest ih =>
      simp only [List.map_cons]
      by_cases hm : p.1 ∈ notesL
      · rw [if_pos hm]
        by_cases hk : r = p.1
        · subst hk
          simp [dget, hm]
        · simp [dget, hk, hm, ih]
      · rw [if_neg hm]
        by_cases hk : r = p.1
        · subst hk
          simp [dget, hm]
        · simp [dget, hk, hm, ih]

theorem dget_updated_heap (now : ℚ) (s : St) (r : Nat) :
    dget (updated_heap now s) r =
      if r ∈ s.notes then (dget s.heap r).map (update_note now)
      else dget s.heap r := by
  unfold updated_heap
  exact dget_map_update now s.notes s.heap r

theorem inv_init (ct : ControllerType) (nho : Bool) (lw lh : ℚ) :
    Inv (init_state ct nho lw lh) := by
  refine ⟨?_, ?_, ?_, ?_, ?_⟩
  · intro r hr
    exact absurd hr (List.not_mem_nil r)
  · intro idq r hq
    simp [init_state, dget] at hq
  · intro idq r hq
    simp [init_state, dget] at hq
  · intro r n hr
    exact absurd hr (List.not_mem_nil r)
  · intro r n hr
    exact absurd hr (List.not_mem_nil r)

theorem inv_cleanup (s : St) : Inv (emergency_cleanup s) := by
  refine ⟨?_, ?_, ?_, ?_, ?_⟩
  · intro r hr
    exact absurd hr (List.not_mem_nil r)
  · intro idq r hq
    simp [emergency_cleanup, dget] at hq
  · intro idq r hq
    simp [emergency_cleanup, dget] at hq
  · intro r n hr
    exact absurd hr (List.not_mem_nil r)
  · intro r n hr
    exact absurd hr (List.not_mem_nil r)

theorem inv_validate (now : ℚ) (s : St) (phys : Nat → Bool) (hc : Bool)
    (h : Inv s) : Inv (validate_button_states now s phys hc) := by
  rw [validate_button_states_eq_self]
  exact h

theorem inv_press (now : ℚ) (s : St) (id : String) (h : Inv s) :
    Inv (on_button_press now s id) := by
  by_cases hp : dget s.button_states id = some true
  · rw [press_of_pressed now s id hp]
    exact h
  · obtain ⟨h1, h2, h3, h4, h5⟩ := h
    unfold on_button_press create_ddr_note
    rw [if_neg hp]
    by_cases hb : id ∈ BUTTON_ORDER
    · rw [if_pos hb]
      refine ⟨?_, ?_, ?_, ?_, ?_⟩
      · intro r hr
        rcases List.mem_append.mp hr with hr | hr
        · exact Nat.lt_succ_of_lt (h1 r hr)
        · rcases List.mem_singleton.mp hr with rfl
          exact Nat.lt_succ_self _
      · intro idq r hq
        by_cases hid : idq = id
        · subst hid
          rw [dget_dset_self] at hq
          injection hq with hq
          subst hq
          exact Nat.lt_succ_self _
        · rw [dget_dset_ne _ _ _ _ hid] at hq
          exact Nat.lt_succ_of_lt (h2 idq r hq)
      · intro idq r hq
        by_cases hid : idq = id
        · rw [hid] at hq ⊢
          rw [dget_dset_self] at hq
          injection hq with hq
          subst hq
          exact ⟨_, dget_dset_self _ _ _, rfl, rfl⟩
        · rw [dget_dset_ne _ _ _ _ hid] at hq
          obtain ⟨n, hn, hbid, hg⟩ := h3 idq r hq
          have hrne : r ≠ s.next_ref := Nat.ne_of_lt (h2 idq r hq)
          refine ⟨n, ?_, hbid, hg⟩
          rw [dget_dset_ne _ _ _ _ hrne]
          exact hn
      · intro r n hr hn hg
        rcases List.mem_append.mp hr with hr | hr
        · have hrne : r ≠ s.next_ref := Nat.ne_of_lt (h1 r hr)
          rw [dget_dset_ne _ _ _ _ hrne] at hn
          by_cases hid : n.button_id = id
          · exact absurd (hid ▸ h5 r n hr hn hg) hp
          · rw [dget_dset_ne _ _ _ _ hid]
            exact h4 r n hr hn hg
        · rcases List.mem_singleton.mp hr with rfl
          rw [dget_dset_self] at hn
          injection hn with hn
          subst hn
          rw [show (mk_note now
            { s with button_states := dset s.button_states id true
                     button_press_count :=
                       dset s.button_press_count id
                         ((dget s.button_press_count id).getD 0 + 1)
                     total_presses := s.total_presses + 1
                     events := s.events ++ [Ev.press id] } id).button_id = id
            from rfl]
          rw [dget_dset_self]
      · intro r n hr hn hg
        rcases List.mem_append.mp hr with hr | hr
        · have hrne : r ≠ s.next_ref := Nat.ne_of_lt (h1 r hr)
          rw [dget_dset_ne _ _ _ _ hrne] at hn
          by_cases hid : n.button_id = id
          · rw [hid, dget_dset_self]
          · rw [dget_dset_ne _ _ _ _ hid]
            exact h5 r n hr hn hg
        · rcases List.mem_singleton.mp hr with rfl
          rw [dget_dset_self] at hn
          injection hn with hn
          subst hn
          rw [show (mk_note now
            { s with button_states := dset s.button_states id true
                     button_press_count :=
                       dset s.button_press_count id
                         ((dget s.button_press_count id).getD 0 + 1)
                     total_presses := s.total_presses + 1
                     events := s.events ++ [Ev.press id] } id).button_id = id
            from rfl]
          rw [dget_dset_self]
    · rw [if_neg hb]
      refine ⟨h1, h2, h3, h4, ?_⟩
      intro r n hr hn hg
      by_cases hid : n.button_id = id
      · rw [hid, dget_dset_self]
      · rw [dget_dset_ne _ _ _ _ hid]
        exact h5 r n hr hn hg

theorem inv_release (now : ℚ) (s : St) (id : String) (h : Inv s) :
    Inv (on_button_release now s id) := by
  by_cases hp : dget s.button_states id = some true
  · obtain ⟨h1, h2, h3, h4, h5⟩ := h
    unfold on_button_release end_ddr_note
    rw [if_pos hp]
    split
    · rename_i heq
      dsimp only at heq
      refine ⟨h1, h2, h3, h4, ?_⟩
      intro r n hr hn hg
      by_cases hid : n.button_id = id
      · exfalso
        have hact := h4 r n hr hn hg
        rw [hid, heq] at hact
        cases hact
      · rw [dget_dset_ne _ _ _ _ hid]
        exact h5 r n hr hn hg
    · rename_i r' heq
      dsimp only at heq
      obtain ⟨m, hm, hmb, hmg⟩ := h3 id r' heq
      split
      · rename_i n0 heq2
        dsimp only at heq2
        rw [hm] at heq2
        injection heq2 with heq2
        subst heq2
        refine ⟨h1, ?_, ?_, ?_, ?_⟩
        · intro idq rq hq
          by_cases hid : idq = id
          · rw [hid, dget_ddel_self] at hq
            cases hq
          · rw [dget_ddel_ne _ _ _ hid] at hq
            exact h2 idq rq hq
        · intro idq rq hq
          by_cases hid : idq = id
          · rw [hid, dget_ddel_self] at hq
            cases hq
          · rw [dget_ddel_ne _ _ _ hid] at hq
            obtain ⟨m2, hm2, hb2, hg2⟩ := h3 idq rq hq
            have hrne : rq ≠ r' := by
              intro hrr
              rw [hrr, hm] at hm2
              injection hm2 with hm2
              subst hm2
              exact hid (hb2 ▸ hmb)
            refine ⟨m2, ?_, hb2, hg2⟩
            rw [dget_dset_ne _ _ _ _ hrne]
            exact hm2
        · intro rq n hrq hn hgn
          by_cases hrr : rq = r'
          · exfalso
            rw [hrr, dget_dset_self] at hn
            injection hn with hn
            subst hn
            exact Bool.false_ne_true hgn
          · rw [dget_dset_ne _ _ _ _ hrr] at hn
            have hact := h4 rq n hrq hn hgn
            by_cases hid : n.button_id = id
            · exfalso
              rw [hid, heq] at hact
              injection hact with hact
              exact hrr hact.symm
            · rw [dget_ddel_ne _ _ _ hid]
              exact hact
        · intro rq n hrq hn hgn
          by_cases hrr : rq = r'
          · exfalso
            rw [hrr, dget_dset_self] at hn
            injection hn with hn
            subst hn
            exact Bool.false_ne_true hgn
          · rw [dget_dset_ne _ _ _ _ hrr] at hn
            have hbs := h5 rq n hrq hn hgn
            by_cases hid : n.button_id = id
            · exfalso
              have hact := h4 rq n hrq hn hgn
              rw [hid, heq] at hact
              injection hact with hact
              exact hrr hact.symm
            · rw [dget_dset_ne _ _ _ _ hid]
              exact hbs
      · rename_i heq2
        dsimp only at heq2
        rw [hm] at heq2
        cases heq2
  · rw [release_of_not_pressed now s id hp]
    exact h

theorem inv_update (now : ℚ) (s : St) (h : Inv s) :
    Inv (update_ddr_notes now s) := by
  obtain ⟨h1, h2, h3, h4, h5⟩ := h
  unfold update_ddr_notes
  refine ⟨?_, ?_, ?_, ?_, ?_⟩
  · intro r hr
    dsimp only at hr ⊢
    exact h1 r (List.mem_filter.mp hr).1
  · exact h2
  · intro idq rq hq
    dsimp only at hq ⊢
    obtain ⟨n, hn, hb, hg⟩ := h3 idq rq hq
    rw [dget_updated_heap]
    by_cases hm : rq ∈ s.notes
    · rw [if_pos hm, hn]
      exact ⟨update_note now n, rfl,
        by rw [update_note_button_id]; exact hb,
        by rw [update_note_is_growing]; exact hg⟩
    · rw [if_neg hm]
      exact ⟨n, hn, hb, hg⟩
  · intro rq n hrq hn hg
    dsimp only at hrq hn ⊢
    have hrq' : rq ∈ s.notes := (List.mem_filter.mp hrq).1
    rw [dget_updated_heap, if_pos hrq'] at hn
    cases hh : dget s.heap rq with
    | none =>
        rw [hh] at hn
        simp at hn
    | some n0 =>
        rw [hh] at hn
        injection hn with hn
        subst hn
        rw [update_note_button_id]
        exact h4 rq n0 hrq' hh
          (by rw [update_note_is_growing] at hg; exact hg)
  · intro rq n hrq hn hg
    dsimp only at hrq hn ⊢
    have hrq' : rq ∈ s.notes := (List.mem_filter.mp hrq).1
    rw [dget_updated_heap, if_pos hrq'] at hn
    cases hh : dget s.heap rq with
    | none =>
        rw [hh] at hn
        simp at hn
    | some n0 =>
        rw [hh] at hn
        injection hn with hn
        subst hn
        rw [update_note_button_id]
        exact h5 rq n0 hrq' hh
          (by rw [update_note_is_growing] at hg; exact hg)

theorem inv_step (s t : St) (hst : Step s t) (h : Inv s) : Inv t := by
  cases hst with
  | press now id => exact inv_press now s id h
  | release now id => exact inv_release now s id h
  | update now => exact inv_update now s h
  | cleanup => exact inv_cleanup s
  | validate now phys hc => exact inv_validate now s phys hc h

theorem reachable_inv (s : St) (h : Reachable s) : Inv s := by
  induction h with
  | init ct nho lw lh => exact inv_init ct nho lw lh
  | step s t hs hst ih => exact inv_step s t hst ih

/-- C9: in every state reachable by the press/release/note-update/emergency-
cleanup/reconciliation operations, at most one note in the live collection
owned by a given logical id has its growing flag set: two live refs to
growing notes with the same owner coincide. -/
theorem c9_at_most_one_growing_note_per_id (s : St) (hs : Reachable s)
    (id : String) (r1 r2 : Nat) (n1 n2 : DDRNote)
    (hr1 : r1 ∈ s.notes) (hr2 : r2 ∈ s.notes)
    (hn1 : dget s.heap r1 = some n1) (hn2 : dget s.heap r2 = some n2)
    (hg1 : n1.is_growing = true) (hg2 : n2.is_growing = true)
    (hb1 : n1.button_id = id) (hb2 : n2.button_id = id) : r1 = r2 := by
  have h := reachable_inv s hs
  have e1 := h.growing_active r1 n1 hr1 hn1 hg1
  have e2 := h.growing_active r2 n2 hr2 hn2 hg2
  rw [hb1] at e1
  rw [hb2] at e2
  rw [e1] at e2
  exact Option.some.inj e2

/-- Witness for C9 at the reachable state holding one growing note. -/
theorem c9_at_most_one_growing_note_per_id_witness : (0 : Nat) = 0 :=
  c9_at_most_one_growing_note_per_id c9_witness_state
    (Reachable.step _ _
      (Reachable.init ControllerType.generic false 85 500)
      (Step.press (init_state ControllerType.generic false 85 500) 0 "1"))
    "1" 0 0 c9_note c9_note (by decide) (by decide) rfl rfl rfl rfl rfl rfl

end StreamPad
